import Mathlib

set_option autoImplicit false

/-!
Shallow embedding of `src/iamtune/aws.py` (classes `AwsClient` and `IamReader`).

The source is Python, so the embedding models the small fragment of Python
dynamic semantics the module actually exercises: dictionary / list / string
values (`PyVal`), the exceptions the exercised operations raise (`PyErr`),
indexing (`v[k]`), `dict.get`, `list(...)`, iteration, `max(...)`, and
`sorted(..., key=..., reverse=True)`.  Fallible computations live in
`Except PyErr`.  Loops that the source bounds only by remote behaviour
(`while True` in `_retried_call` and in `get_last_accessed_details`, and the
cursor recursion in `_paginated_request`) take an explicit fuel parameter;
exhausting the fuel is recorded as the distinguished outcome `PyErr.diverge`,
which models non-termination and is not a Python exception.

Remote behaviour (what each `boto` operation returns on its successive
invocations) is supplied by the caller: as an outcome-per-attempt function for
`_retried_call`, as a cursor-indexed fetch function for `_paginated_request`,
and as a `World` record of per-operation responses for the `AwsClient` /
`IamReader` methods.  Each remote response is the *post-retry* outcome of the
underlying call: rate-limited attempts are invisible to callers and all other
failures propagate unchanged, which is exactly what the `_retried_call`
theorems below establish.
-/

/-- A Python value, restricted to the shapes `aws.py` manipulates:
strings, non-negative numbers (also standing in for opaque scalar timestamps
such as `datetime` — like `datetime`, a `.nat` is not iterable), lists and
string-keyed dictionaries (insertion ordered, as in Python 3.7+). -/
inductive PyVal : Type where
  | str (s : String)
  | nat (n : Nat)
  | list (xs : List PyVal)
  | dict (kvs : List (String × PyVal))

/-- The exceptions the exercised code paths can raise, plus `diverge`,
the marker for a fuel-exhausted (non-terminating) run. -/
inductive PyErr : Type where
  /-- `TypeError`: unexpected keyword argument, string index on a
  list/str, `max()` of a non-iterable, unsupported comparison, … -/
  | typeError
  /-- `KeyError`: missing dictionary key. -/
  | keyError
  /-- `IndexError`: list index out of range. -/
  | indexError
  /-- `AttributeError`: `.get` on a non-dictionary. -/
  | attributeError
  /-- `ValueError`: `max()` of an empty sequence. -/
  | valueError
  /-- The bare `Exception()` raised on a FAILED analysis job (aws.py line 65). -/
  | exception
  /-- A re-raised `botocore.exceptions.ClientError`, carrying its
  `.response` payload. -/
  | clientError (response : PyVal)
  /-- Fuel exhausted: the run does not terminate. Not a Python exception. -/
  | diverge

/-- Python `==` against a string literal (the only `==` the source performs:
`e.response["Error"]["Code"] == "LimitExceededException"` and
`response["JobStatus"] == "FAILED"` / `"COMPLETED"`): true exactly for an
equal string; a value of any other shape compares unequal without raising. -/
def pyEqStr : PyVal → String → Bool
  | .str a, b => a == b
  | _, _ => false

/-- Python truthiness of a value (`if marker:`): empty strings, zero and
empty containers are falsy. -/
def pyTruthy : PyVal → Bool
  | .str s => !s.isEmpty
  | .nat n => n != 0
  | .list xs => !xs.isEmpty
  | .dict kvs => !kvs.isEmpty

/-- Truthiness of an optional value; `none` models Python `None` (falsy). -/
def optTruthy : Option PyVal → Bool
  | none => false
  | some v => pyTruthy v

/-- Python iteration `for x in v`: lists yield elements, dictionaries yield
their keys (as strings), strings yield their characters; numbers are not
iterable (`TypeError`). -/
def pyIter : PyVal → Except PyErr (List PyVal)
  | .list xs => .ok xs
  | .dict kvs => .ok (kvs.map (fun kv => .str kv.1))
  | .str s => .ok (s.toList.map (fun c => .str (String.mk [c])))
  | .nat _ => .error .typeError

/-- Python `list(v)`: materialise the iterator. `list(d)` of a dictionary is
the list of its keys — this is the slip on aws.py line 61. -/
def pyList (v : PyVal) : Except PyErr PyVal :=
  (pyIter v).map .list

/-- Python subscription with a string key `v["k"]`: dictionary lookup
(`KeyError` when absent); on a list, a string or a number the subscript
raises `TypeError`. -/
def pyIndexS : PyVal → String → Except PyErr PyVal
  | .dict kvs, k =>
      match kvs.find? (fun kv => kv.1 == k) with
      | some kv => .ok kv.2
      | none => .error .keyError
  | _, _ => .error .typeError

/-- Python subscription with an integer index `v[i]` (only `i ≥ 0` is
exercised): list indexing with bounds check; a string-keyed dictionary has no
integer key (`KeyError`); a string yields a character; a number raises
`TypeError`. -/
def pyIndexN : PyVal → Nat → Except PyErr PyVal
  | .list xs, i =>
      match xs.get? i with
      | some v => .ok v
      | none => .error .indexError
  | .dict _, _ => .error .keyError
  | .str s, i =>
      match s.toList.get? i with
      | some c => .ok (.str (String.mk [c]))
      | none => .error .indexError
  | .nat _, _ => .error .typeError

/-- Python `v.get(k)` (`dict.get` with default `None`): `none` when the key
is absent; on a non-dictionary the attribute access raises
`AttributeError`. -/
def pyGet : PyVal → String → Except PyErr (Option PyVal)
  | .dict kvs, k => .ok ((kvs.find? (fun kv => kv.1 == k)).map (fun kv => kv.2))
  | _, _ => .error .attributeError

/-!
## `AwsClient._request` (aws.py lines 78–79) as seen by its call sites

`_request(self, fun)` accepts exactly one argument.  Several call sites in
the source pass identifier keyword arguments (`RoleName=…`, `PolicyArn=…`,
…) directly to `_request`; Python binds arguments at the call, so such a
call raises `TypeError: _request() got an unexpected keyword argument`
before the body ever runs.  When the call is well formed, `_request`
returns `_retried_call(fun)`, whose observable result is the post-retry
outcome of the remote operation (established by the `_retried_call`
theorems below); the embedding therefore takes that post-retry outcome
directly as the operation's behaviour.
-/

/-- A call `self._request(op, **kwargs)`: Python raises `TypeError` at the
call site when any keyword argument is passed (the signature is
`_request(self, fun)`); otherwise the result is the operation's post-retry
outcome. -/
def request (op : Unit → Except PyErr PyVal) (kwargs : List (String × PyVal)) :
    Except PyErr PyVal :=
  if kwargs.isEmpty then op () else .error .typeError

/-- The trace of one forced run of the `_paginated_request` generator:
which (attempt index, cursor) pairs were fetched in order, which response
pages were yielded in order, and whether the run completed (`none`), raised
(`some e`) or exhausted its fuel (`some .diverge`). -/
structure PagRun : Type where
  fetched : List (Nat × Option PyVal)
  pages : List PyVal
  err : Option PyErr

/-- `AwsClient._paginated_request` (aws.py lines 71–76), forced: execute the
operation (through the retry wrapper) at the current cursor, yield the
response page, read `response.get("Marker")`, and when the marker is truthy
recurse with the operation re-bound to that marker (`functools.partial(fun,
Marker=marker)` — rebinding the keyword replaces any previous binding).
`op` gives the post-retry outcome of the `i`-th call at a given cursor;
`i` numbers the calls so the trace records each fetch. -/
def paginated_request (op : Nat → Option PyVal → Except PyErr PyVal)
    (i : Nat) (cur : Option PyVal) : Nat → PagRun
  | 0 => ⟨[], [], some .diverge⟩
  | fuel + 1 =>
    match op i cur with
    | .error e => ⟨[(i, cur)], [], some e⟩
    | .ok resp =>
      match pyGet resp "Marker" with
      | .error e => ⟨[(i, cur)], [resp], some e⟩
      | .ok mk =>
        if optTruthy mk then
          let r := paginated_request op (i + 1) mk fuel
          ⟨(i, cur) :: r.fetched, resp :: r.pages, r.err⟩
        else ⟨[(i, cur)], [resp], none⟩

/-- A well-formed page chain for `op` starting at cursor `cur`: each page is
the (post-retry) response at its cursor, every page but the last carries a
truthy `"Marker"` naming the next cursor, and the last page's marker is
absent or falsy. -/
def chainFrom (op : Option PyVal → Except PyErr PyVal) :
    Option PyVal → List PyVal → Prop
  | _, [] => False
  | cur, [p] =>
    op cur = .ok p ∧
    (match pyGet p "Marker" with
     | .ok mk => optTruthy mk = false
     | .error _ => False)
  | cur, p :: q :: rest =>
    op cur = .ok p ∧
    (match pyGet p "Marker" with
     | .ok (some m) => pyTruthy m = true ∧ chainFrom op (some m) (q :: rest)
     | _ => False)

/-- The cursor sequence a chain of pages induces: the starting cursor, then
each page's marker. -/
def chainCursors : Option PyVal → List PyVal → List (Option PyVal)
  | _, [] => []
  | cur, [_] => [cur]
  | cur, p :: q :: rest =>
    cur ::
      (match pyGet p "Marker" with
       | .ok (some m) => chainCursors (some m) (q :: rest)
       | _ => [])

/-- A concrete three-page remote listing: pages 1 and 2 carry markers
`"m1"`, `"m2"`; page 3 carries none. -/
def pagePg1 : PyVal := .dict [("Items", .list [.str "a", .str "b"]), ("Marker", .str "m1")]

def pagePg2 : PyVal := .dict [("Items", .list [.str "c"]), ("Marker", .str "m2")]

def pagePg3 : PyVal := .dict [("Items", .list [.str "d"])]

/-- The fetch function serving the three-page listing. -/
def pageOpW : Option PyVal → Except PyErr PyVal
  | none => .ok pagePg1
  | some (.str "m1") => .ok pagePg2
  | some (.str "m2") => .ok pagePg3
  | _ => .error .keyError

/-!
## `AwsClient._retried_call` (aws.py lines 81–89)

`while True: try: return fun() except ClientError as e: …` — the outcome of
each successive invocation of `fun` is supplied as a function of the attempt
number.  A raised `botocore.exceptions.ClientError` carries a `.response`
payload that the handler inspects (`e.response["Error"]["Code"]`); any
exception of another class is not caught and propagates.
-/

/-- The outcome of one invocation of the wrapped operation: a normal return,
a raised `botocore.exceptions.ClientError` (with its `.response` payload), or
a raised exception of any other class (uncaught by `_retried_call`). -/
inductive BotoOutcome : Type where
  | ok (v : PyVal)
  | clientError (response : PyVal)
  | otherError (e : PyErr)

/-- The test `e.response["Error"]["Code"] == "LimitExceededException"`
(aws.py line 86); the two subscriptions run inside the `except` block, so a
malformed response makes this raise in turn. -/
def isLimitExceeded (response : PyVal) : Except PyErr Bool := do
  let err ← pyIndexS response "Error"
  let code ← pyIndexS err "Code"
  .ok (pyEqStr code "LimitExceededException")

/-- Whether an invocation outcome is a rate-limit failure that
`_retried_call` absorbs: a `ClientError` whose error code reads
`LimitExceededException`. -/
def isRateLimitOutcome : BotoOutcome → Bool
  | .clientError response =>
      match isLimitExceeded response with
      | .ok b => b
      | .error _ => false
  | _ => false

/-- The exception `_retried_call` lets escape on a given invocation outcome,
if any: other-class exceptions propagate uncaught; a non-rate-limit
`ClientError` is re-raised by `raise e`; a `ClientError` whose response
cannot even be inspected propagates the inspection error. -/
def raisedOf : BotoOutcome → Option PyErr
  | .ok _ => none
  | .otherError e => some e
  | .clientError response =>
      match isLimitExceeded response with
      | .error e2 => some e2
      | .ok true => none
      | .ok false => some (.clientError response)

/-- `AwsClient._retried_call`, forced: returns the final result (or escaped
exception) together with the number of invocations of the operation and the
list of backoff sleeps (each `time.sleep(5)`, taken after a rate-limited
attempt and before the next one).  `op i` is the outcome of invocation `i`;
`none` means the fuel ran out while still retrying. -/
def retried_call (op : Nat → BotoOutcome) (i : Nat) :
    Nat → Option (Except PyErr PyVal × Nat × List Nat)
  | 0 => none
  | fuel + 1 =>
    match op i with
    | .ok v => some (.ok v, 1, [])
    | .otherError e => some (.error e, 1, [])
    | .clientError response =>
      match isLimitExceeded response with
      | .error e2 => some (.error e2, 1, [])
      | .ok true =>
          (retried_call op (i + 1) fuel).map (fun r => (r.1, r.2.1 + 1, 5 :: r.2.2))
      | .ok false => some (.error (.clientError response), 1, [])

/-- A rate-limited `ClientError` response payload
(`{"Error": {"Code": "LimitExceededException"}}`). -/
def limitResp : PyVal := .dict [("Error", .dict [("Code", .str "LimitExceededException")])]

/-- An access-denied `ClientError` response payload (not a rate limit). -/
def deniedResp : PyVal := .dict [("Error", .dict [("Code", .str "AccessDenied")])]

/-- An operation that is rate limited on its first two invocations and
succeeds on the third. -/
def retryOpW : Nat → BotoOutcome
  | 0 => .clientError limitResp
  | 1 => .clientError limitResp
  | _ => .ok (.str "result")

/-- An operation that raises a non-rate-limit `ClientError` on its first
invocation. -/
def denyOpW : Nat → BotoOutcome
  | _ => .clientError deniedResp

/-!
## Sorting machinery for `IamReader._get_latest_version_id` (aws.py 119–122)
-/

/-- Python `<` on the modelled values, as exercised through `sorted`'s key
comparisons: numbers compare by value, strings lexicographically; any other
combination (cross-shape, or containers, which the keys this module computes
never are) is modelled as `TypeError`. -/
def pyLtB : PyVal → PyVal → Except PyErr Bool
  | .nat a, .nat b => .ok (decide (a < b))
  | .str a, .str b => .ok (decide (a < b))
  | _, _ => .error .typeError

/-- Python `max(v)` with a single argument: the maximum of an iterable.  A
scalar — a number here, standing in as well for the `datetime` objects boto
puts in `CreateDate` — is not iterable, so `max` raises `TypeError` (the slip
in the sort key on aws.py line 121).  On a string it is the greatest
character; on a list the greatest element under `<`; on a dictionary the
greatest key.  Empty iterables raise `ValueError`. -/
def pyMax : PyVal → Except PyErr PyVal
  | .nat _ => .error .typeError
  | .str s =>
    match s.toList with
    | [] => .error .valueError
    | c :: cs => .ok (.str (String.mk [cs.foldl max c]))
  | .list [] => .error .valueError
  | .list (x :: xs) =>
    xs.foldlM (fun acc y => do
      let lt ← pyLtB acc y
      pure (if lt then y else acc)) x
  | .dict [] => .error .valueError
  | .dict (kv :: kvs) => .ok (.str ((kvs.map (fun p => p.1)).foldl max kv.1))

/-- Insert a (key, element) pair into a list already sorted descending by
key, placing it after every entry whose key is greater or equal; a left fold
of these insertions is a stable descending sort.  Comparisons may raise. -/
def insertDescBy (p : PyVal × PyVal) :
    List (PyVal × PyVal) → Except PyErr (List (PyVal × PyVal))
  | [] => .ok [p]
  | q :: rest => do
    let lt ← pyLtB q.1 p.1
    if lt then .ok (p :: q :: rest)
    else do
      let r ← insertDescBy p rest
      .ok (q :: r)

/-- Python `sorted(xs, key=key, reverse=True)`: compute every element's key
in input order (the first key that raises aborts the sort; on an empty input
the key function is never applied), then sort stably in descending key order
(equal keys keep input order, as CPython's stable sort does under
`reverse=True`). -/
def pySortedDescByKey (key : PyVal → Except PyErr PyVal) (xs : List PyVal) :
    Except PyErr (List PyVal) := do
  let decorated ← xs.mapM (fun x => do
    let k ← key x
    pure (k, x))
  let sorted ← decorated.foldlM (fun acc p => insertDescBy p acc) []
  pure (sorted.map (fun p => p.2))

/-- The body of `IamReader._get_latest_version_id` after the versions list
has been obtained (aws.py lines 121–122):
`sorted(versions, key=lambda it: max(it["CreateDate"]), reverse=True)[0]["VersionId"]`. -/
def latest_of_versions (versions : PyVal) : Except PyErr PyVal := do
  let vs ← pyIter versions
  let sorted_versions ← pySortedDescByKey
    (fun it => do
      let cd ← pyIndexS it "CreateDate"
      pyMax cd) vs
  let first ← pyIndexN (.list sorted_versions) 0
  pyIndexS first "VersionId"

/-!
## The remote world and the `AwsClient` / `IamReader` methods

A `World` fixes the post-retry outcome of every remote operation the client
can issue (see the `_request` note above).  The `slad_op` operation
(`get_service_last_accessed_details`) is indexed by a running call number and
by the `Marker` cursor, because the source calls it both as the poll of the
analysis job and as the paginated record fetch.
-/

/-- Post-retry remote behaviour of each boto operation used by `aws.py`. -/
structure World : Type where
  /-- `iam.get_role(RoleName=…)`. -/
  get_role_op : String → Except PyErr PyVal
  /-- `iam.list_role_policies(RoleName=…)`, per call number and cursor. -/
  list_role_policies_op : String → Nat → Option PyVal → Except PyErr PyVal
  /-- `iam.list_attached_role_policies(RoleName=…)`. -/
  list_attached_role_policies_op : String → Except PyErr PyVal
  /-- `iam.get_role_policy(RoleName=…, PolicyName=…)`. -/
  get_role_policy_op : String → PyVal → Except PyErr PyVal
  /-- `iam.list_policy_versions(PolicyArn=…)`. -/
  list_policy_versions_op : PyVal → Except PyErr PyVal
  /-- `iam.get_policy_version(PolicyArn=…, VersionId=…)`. -/
  get_policy_version_op : PyVal → PyVal → Except PyErr PyVal
  /-- `iam.generate_service_last_accessed_details(Arn=…, Granularity=…)`. -/
  generate_slad_op : PyVal → Except PyErr PyVal
  /-- `iam.get_service_last_accessed_details(JobId=…, [Marker=…])`, per
  job id, running call number and cursor. -/
  slad_op : PyVal → Nat → Option PyVal → Except PyErr PyVal

/-- A call `self._paginated_request(op, **kwargs)`: like `_request`, the
generator function `_paginated_request(self, fun)` accepts no keyword
arguments, so passing any raises `TypeError` when the generator is forced;
otherwise the pagination runs. -/
def paginated_request_call (op : Nat → Option PyVal → Except PyErr PyVal)
    (kwargs : List (String × PyVal)) (fuel : Nat) : Except PyErr PagRun :=
  if kwargs.isEmpty then .ok (paginated_request op 0 none fuel)
  else .error .typeError

/-- `AwsClient.get_role` (aws.py 28–29):
`self._request(self._boto_client.get_role, RoleName=role_name)["Role"]` —
note the keyword argument goes to `_request` itself. -/
def get_role (w : World) (role_name : String) : Except PyErr PyVal := do
  let resp ← request (fun _ => w.get_role_op role_name)
    [("RoleName", .str role_name)]
  pyIndexS resp "Role"

/-- `AwsClient.list_inline_policies` (aws.py 31–33), forced: for each
response page of `_paginated_request(list_role_policies, RoleName=…)`, yield
from `response["PolicyNames"]`.  The keyword argument again goes to the
wrapper itself. -/
def list_inline_policies (w : World) (role_name : String) (fuel : Nat) :
    Except PyErr (List PyVal) := do
  let pr ← paginated_request_call (w.list_role_policies_op role_name)
    [("RoleName", .str role_name)] fuel
  let chunks ← pr.pages.mapM (fun r => do
    let names ← pyIndexS r "PolicyNames"
    pyIter names)
  match pr.err with
  | some e => .error e
  | none => pure chunks.flatten

/-- `AwsClient.list_attached_policies` (aws.py 35–37), forced: iterates
`self._request(list_attached_role_policies, RoleName=…)` — the single-shot
`_request`, not `_paginated_request` — and indexes each iterate with
`"AttachedPolicies"`.  (Iterating a response dictionary yields its keys.) -/
def list_attached_policies (w : World) (role_name : String) :
    Except PyErr (List PyVal) := do
  let resp ← request (fun _ => w.list_attached_role_policies_op role_name)
    [("RoleName", .str role_name)]
  let pages ← pyIter resp
  let chunks ← pages.mapM (fun r => do
    let items ← pyIndexS r "AttachedPolicies"
    pyIter items)
  pure chunks.flatten

/-- `AwsClient.get_inline_policy_document` (aws.py 39–42). -/
def get_inline_policy_document (w : World) (role_name : String)
    (policy_name : PyVal) : Except PyErr PyVal := do
  let resp ← request (fun _ => w.get_role_policy_op role_name policy_name)
    [("RoleName", .str role_name), ("PolicyName", policy_name)]
  pyIndexS resp "PolicyDocument"

/-- `AwsClient.list_policy_versions` (aws.py 44–45):
`self._request(list_policy_versions, PolicyArn=…)["Versions"]` — single-shot
`_request`, keyword passed to the wrapper itself. -/
def list_policy_versions (w : World) (policy_arn : PyVal) :
    Except PyErr PyVal := do
  let resp ← request (fun _ => w.list_policy_versions_op policy_arn)
    [("PolicyArn", policy_arn)]
  pyIndexS resp "Versions"

/-- `AwsClient.get_policy_document` (aws.py 47–50). -/
def get_policy_document (w : World) (policy_arn : PyVal) (version_id : PyVal) :
    Except PyErr PyVal := do
  let resp ← request (fun _ => w.get_policy_version_op policy_arn version_id)
    [("PolicyArn", policy_arn), ("VersionId", version_id)]
  let pv ← pyIndexS resp "PolicyVersion"
  pyIndexS pv "Document"

/-- `IamReader._get_latest_version_id` (aws.py 119–122). -/
def get_latest_version_id (w : World) (policy_arn : PyVal) :
    Except PyErr PyVal := do
  let versions ← list_policy_versions w policy_arn
  latest_of_versions versions

/-!
## `AwsClient.get_last_accessed_details` (aws.py 52–69)

The method is a generator; calling it runs nothing.  A forced run submits
the job, then loops: `time.sleep(5)`, poll, test the status.  The poll
response is wrapped in `list(...)` (line 61), turning the response
dictionary into its key list before `response["JobStatus"]` is evaluated.
The loop body is `while True` with no `break` or `return`: a forced run can
only raise or run forever, never fall off the end — hence `GenRun.err` is
always present, with `.diverge` for a run still looping when the fuel ends.
-/

/-- The observable trace of one forced run of the
`get_last_accessed_details` generator: how many backoff sleeps and status
polls happened, how many paginated record fetches, what was yielded, and the
exception that escaped (or `.diverge`). -/
structure GenRun : Type where
  sleeps : Nat
  polls : Nat
  fetches : Nat
  yielded : List PyVal
  err : PyErr

/-- The polling loop of `get_last_accessed_details` (aws.py 59–69), starting
at call number `i` of `get_service_last_accessed_details`.  Each iteration:
sleep 5, poll (through `_request`, keywords bound by `functools.partial`),
apply `list(...)` to the response, index with `"JobStatus"`, then test
`FAILED` (raise the bare `Exception()`), test `COMPLETED` (yield every page
of the paginated fetch for the same job id — and then, lacking a `break`,
loop again), otherwise loop. -/
def pollLoop (w : World) (job_id : PyVal) : Nat → Nat → GenRun
  | _, 0 => ⟨0, 0, 0, [], .diverge⟩
  | i, fuel + 1 =>
    match request (fun _ => w.slad_op job_id i none) [] with
    | .error e => ⟨1, 1, 0, [], e⟩
    | .ok resp =>
      match pyList resp with
      | .error e => ⟨1, 1, 0, [], e⟩
      | .ok keys =>
        match pyIndexS keys "JobStatus" with
        | .error e => ⟨1, 1, 0, [], e⟩
        | .ok st =>
          if pyEqStr st "FAILED" then ⟨1, 1, 0, [], .exception⟩
          else if pyEqStr st "COMPLETED" then
            let pr := paginated_request (w.slad_op job_id) (i + 1) none fuel
            match pr.err with
            | some e => ⟨1, 1, pr.fetched.length, pr.pages, e⟩
            | none =>
              let rest := pollLoop w job_id (i + 1 + pr.fetched.length) fuel
              ⟨1 + rest.sleeps, 1 + rest.polls,
                pr.fetched.length + rest.fetches,
                pr.pages ++ rest.yielded, rest.err⟩
          else
            let rest := pollLoop w job_id (i + 1) fuel
            ⟨1 + rest.sleeps, 1 + rest.polls, rest.fetches, rest.yielded,
              rest.err⟩

/-- `AwsClient.get_last_accessed_details` (aws.py 52–69), forced: submit the
job (`generate_service_last_accessed_details`, keywords bound by
`functools.partial`, so `_request` is called well-formed), read
`response["JobId"]`, then run the polling loop. -/
def get_last_accessed_details (w : World) (arn : PyVal) (fuel : Nat) : GenRun :=
  match request (fun _ => w.generate_slad_op arn) [] with
  | .error e => ⟨0, 0, 0, [], e⟩
  | .ok resp =>
    match pyIndexS resp "JobId" with
    | .error e => ⟨0, 0, 0, [], e⟩
    | .ok job_id => pollLoop w job_id 0 fuel

/-!
## `IamReader.describe_role` (aws.py 100–117)
-/

/-- The record `describe_role` returns.  `lastAccessedDetails` holds the
behaviour of the *unconsumed* generator returned by
`get_last_accessed_details` (line 116 stores the generator object without
iterating it): the field describes what a later forcing would do, and no
outcome of that forcing — not even an exception — affects whether
`describe_role` itself returns. -/
structure RoleProfile : Type where
  roleArn : PyVal
  roleName : String
  inlinePolicyDocuments : List PyVal
  attachedPolicyDocuments : List PyVal
  lastAccessedDetails : GenRun

/-- `IamReader.describe_role` (aws.py 100–117): fetch the role, list and
fetch inline policies, list attached policies and resolve each ARN's latest
version, fetch those documents, then assemble the profile record.  All steps
but the last are eager (the two generators among them are consumed by list
comprehensions); the access-analysis generator is stored unconsumed. -/
def describe_role (w : World) (role_name : String) (fuel : Nat) :
    Except PyErr RoleProfile := do
  let role ← get_role w role_name
  let inline_policy_names ← list_inline_policies w role_name fuel
  let inline_policy_documents ←
    inline_policy_names.mapM (get_inline_policy_document w role_name)
  let attached ← list_attached_policies w role_name
  let attached_policy_arns ← attached.mapM (fun item => pyIndexS item "PolicyArn")
  let pairs ← attached_policy_arns.mapM (fun arn => do
    let vid ← get_latest_version_id w arn
    pure (arn, vid))
  let attached_policy_documents ← pairs.mapM (fun p => get_policy_document w p.1 p.2)
  let role_arn ← pyIndexS role "Arn"
  pure
    { roleArn := role_arn
      roleName := role_name
      inlinePolicyDocuments := inline_policy_documents
      attachedPolicyDocuments := attached_policy_documents
      lastAccessedDetails := get_last_accessed_details w role_arn fuel }

/-!
## Concrete worlds used by the run evaluations
-/

/-- A benign world: every remote operation answers with a well-formed,
minimal response. -/
def baseWorld : World where
  get_role_op := fun _ => .ok (.dict [("Role", .dict [("Arn", .str "arn:role")])])
  list_role_policies_op := fun _ _ _ => .ok (.dict [("PolicyNames", .list [])])
  list_attached_role_policies_op := fun _ =>
    .ok (.dict [("AttachedPolicies", .list [])])
  get_role_policy_op := fun _ _ => .ok (.dict [("PolicyDocument", .dict [])])
  list_policy_versions_op := fun _ => .ok (.dict [("Versions", .list [])])
  get_policy_version_op := fun _ _ =>
    .ok (.dict [("PolicyVersion", .dict [("Document", .dict [])])])
  generate_slad_op := fun _ => .ok (.dict [("JobId", .str "job-1")])
  slad_op := fun _ _ _ =>
    .ok (.dict [("JobStatus", .str "COMPLETED"),
                ("ServicesLastAccessed", .list [.str "record1"])])

/-- World for the job whose successive poll responses are RUNNING, RUNNING,
COMPLETED (each response a well-formed status dictionary). -/
def wRRC : World :=
  { baseWorld with
    slad_op := fun _ i _ =>
      .ok (.dict [("JobStatus",
                    .str (if i ≤ 1 then "RUNNING" else "COMPLETED")),
                  ("ServicesLastAccessed", .list [.str "record1"])]) }

/-- World for the job whose successive poll responses are RUNNING, FAILED. -/
def wRF : World :=
  { baseWorld with
    slad_op := fun _ i _ =>
      .ok (.dict [("JobStatus",
                    .str (if i = 0 then "RUNNING" else "FAILED"))]) }

/-- Three policy versions with pairwise distinct scalar `CreateDate`
timestamps T1 < T2 < T3. -/
def versT123 : List PyVal :=
  [.dict [("VersionId", .str "v1"), ("CreateDate", .nat 1)],
   .dict [("VersionId", .str "v2"), ("CreateDate", .nat 2)],
   .dict [("VersionId", .str "v3"), ("CreateDate", .nat 3)]]

/-- World whose policy `p1` has the three versions above. -/
def wVers : World :=
  { baseWorld with
    list_policy_versions_op := fun _ => .ok (.dict [("Versions", .list versT123)]) }

/-- World in which the analysis job immediately reports FAILED while every
other remote operation is well formed: the scenario of a job failure during
profile assembly. -/
def wJobFail : World :=
  { baseWorld with
    slad_op := fun _ _ _ => .ok (.dict [("JobStatus", .str "FAILED")]) }

/-- The document of version v2 of policy `p1` in the Deploy scenario. -/
def docV2 : PyVal := .dict [("Statement", .str "allow-v2")]

/-- The Deploy scenario world: role "Deploy" with 0 inline policies, one
attached policy `p1` with versions v1 (T=1) and v2 (T=2), and an analysis
job that completes with one record. -/
def wDeploy : World :=
  { baseWorld with
    get_role_op := fun _ =>
      .ok (.dict [("Role", .dict [("Arn", .str "arn:deploy"),
                                  ("RoleName", .str "Deploy")])])
    list_attached_role_policies_op := fun _ =>
      .ok (.dict [("AttachedPolicies",
                   .list [.dict [("PolicyArn", .str "p1"),
                                 ("PolicyName", .str "P1")]])])
    list_policy_versions_op := fun _ =>
      .ok (.dict [("Versions",
                   .list [.dict [("VersionId", .str "v1"), ("CreateDate", .nat 1)],
                          .dict [("VersionId", .str "v2"), ("CreateDate", .nat 2)]])])
    get_policy_version_op := fun _ _ =>
      .ok (.dict [("PolicyVersion", .dict [("Document", docV2)])]) }

/-- World with a two-page attached-policies listing and a two-page versions
listing for `p1` (page 1 carries marker `"m1"`). -/
def wTwoPage : World :=
  { baseWorld with
    list_attached_role_policies_op := fun _ =>
      .ok (.dict [("AttachedPolicies",
                   .list [.dict [("PolicyArn", .str "p1")]]),
                  ("Marker", .str "m1")])
    list_policy_versions_op := fun _ =>
      .ok (.dict [("Versions",
                   .list [.dict [("VersionId", .str "v1"), ("CreateDate", .nat 1)]]),
                  ("Marker", .str "m1")]) }

/-- World whose policy `p0` has an empty versions list. -/
def wNoVers : World :=
  { baseWorld with
    list_policy_versions_op := fun _ => .ok (.dict [("Versions", .list [])]) }

theorem chainCursors_length (op : Option PyVal → Except PyErr PyVal) :
    ∀ (pages : List PyVal) (cur : Option PyVal), chainFrom op cur pages →
      (chainCursors cur pages).length = pages.length := by
  intro pages
  induction pages with
  | nil => intro cur h; exact absurd h (by simp [chainFrom])
  | cons p rest ih =>
    intro cur h
    cases rest with
    | nil => simp [chainCursors]
    | cons q rest' =>
      obtain ⟨-, h2⟩ := h
      cases hm : pyGet p "Marker" with
      | error e => rw [hm] at h2; exact h2.elim
      | ok mk =>
        rw [hm] at h2
        cases mk with
        | none => exact h2.elim
        | some m =>
          obtain ⟨-, hrest⟩ := h2
          simp [chainCursors, hm, ih (some m) hrest]

theorem paginate_chain_aux (op : Option PyVal → Except PyErr PyVal) :
    ∀ (pages : List PyVal) (cur : Option PyVal) (i fuel : Nat),
      chainFrom op cur pages → pages.length ≤ fuel →
      paginated_request (fun _ => op) i cur fuel =
        ⟨(List.range' i pages.length).zip (chainCursors cur pages), pages, none⟩ := by
  intro pages
  induction pages with
  | nil => intro cur i fuel h _; exact absurd h (by simp [chainFrom])
  | cons p rest ih =>
    intro cur i fuel h hf
    cases fuel with
    | zero => simp at hf
    | succ f =>
      cases rest with
      | nil =>
        obtain ⟨h1, h2⟩ := h
        cases hm : pyGet p "Marker" with
        | error e => rw [hm] at h2; exact h2.elim
        | ok mk =>
          rw [hm] at h2
          simp [paginated_request, h1, hm, h2, chainCursors, List.range']
      | cons q rest' =>
        obtain ⟨h1, h2⟩ := h
        cases hm : pyGet p "Marker" with
        | error e => rw [hm] at h2; exact h2.elim
        | ok mk =>
          rw [hm] at h2
          cases mk with
          | none => exact h2.elim
          | some m =>
            obtain ⟨hm1, hrest⟩ := h2
            have hf' : (q :: rest').length ≤ f := by
              simpa using Nat.le_of_succ_le_succ hf
            have hrec := ih (some m) (i + 1) f hrest hf'
            simp [paginated_request, h1, hm, optTruthy, hm1, hrec,
              chainCursors, List.range']

/-- C2: for a finite chain of N pages in which every page but the last
carries a continuation cursor (`Marker`) and the last carries none,
`_paginated_request` yields exactly those N pages in page order, performs
exactly N fetches — one per page, at the chain's cursors — and terminates
(outcome `none`, not an error and not fuel exhaustion) at the page with no
cursor. -/
theorem paginate_yields_all_pages (op : Option PyVal → Except PyErr PyVal)
    (pages : List PyVal) (fuel : Nat)
    (h : chainFrom op none pages) (hf : pages.length ≤ fuel) :
    paginated_request (fun _ => op) 0 none fuel =
      ⟨(List.range' 0 pages.length).zip (chainCursors none pages), pages, none⟩ ∧
    ((List.range' 0 pages.length).zip (chainCursors none pages)).length =
      pages.length := by
  refine ⟨paginate_chain_aux op pages none 0 fuel h hf, ?_⟩
  simp [List.length_zip, chainCursors_length op pages none h]

theorem paginate_yields_all_pages_witness :
    paginated_request (fun _ => pageOpW) 0 none 3 =
      ⟨(List.range' 0 ([pagePg1, pagePg2, pagePg3] : List PyVal).length).zip
          (chainCursors none [pagePg1, pagePg2, pagePg3]),
        [pagePg1, pagePg2, pagePg3], none⟩ ∧
    ((List.range' 0 ([pagePg1, pagePg2, pagePg3] : List PyVal).length).zip
        (chainCursors none [pagePg1, pagePg2, pagePg3])).length =
      ([pagePg1, pagePg2, pagePg3] : List PyVal).length :=
  paginate_yields_all_pages pageOpW [pagePg1, pagePg2, pagePg3] 3
    ⟨rfl, rfl, rfl, rfl, rfl, rfl⟩ (by decide)

theorem retried_call_aux (op : Nat → BotoOutcome) (v : PyVal) :
    ∀ (K j fuel : Nat),
      (∀ d, d < K → isRateLimitOutcome (op (j + d)) = true) →
      op (j + K) = .ok v → K + 1 ≤ fuel →
      retried_call op j fuel = some (.ok v, K + 1, List.replicate K 5) := by
  intro K
  induction K with
  | zero =>
    intro j fuel _ hok hfuel
    cases fuel with
    | zero => simp at hfuel
    | succ f => simp [retried_call, show op j = .ok v from hok]
  | succ K ih =>
    intro j fuel hK hok hfuel
    cases fuel with
    | zero => simp at hfuel
    | succ f =>
      have h0 : isRateLimitOutcome (op j) = true := by
        simpa using hK 0 (Nat.succ_pos K)
      cases hop : op j with
      | ok w => rw [hop] at h0; simp [isRateLimitOutcome] at h0
      | otherError e => rw [hop] at h0; simp [isRateLimitOutcome] at h0
      | clientError response =>
        rw [hop] at h0
        have hlim : isLimitExceeded response = .ok true := by
          cases hl : isLimitExceeded response with
          | error e2 => simp [isRateLimitOutcome, hl] at h0
          | ok b => simp [isRateLimitOutcome, hl] at h0; rw [h0]
        have hrec := ih (j + 1) f
          (fun d hd => by
            have := hK (d + 1) (Nat.succ_lt_succ hd)
            simpa [Nat.add_assoc, Nat.add_comm 1 d] using this)
          (by
            have : j + (K + 1) = j + 1 + K := by omega
            rw [← this]; exact hok)
          (Nat.le_of_succ_le_succ hfuel)
        simp [retried_call, hop, hlim, hrec, List.replicate]

/-- C3: if the operation fails with a rate-limit `ClientError` on exactly its
first K invocations and succeeds on invocation K, `_retried_call` returns the
one successful result with no error, invokes the operation exactly K + 1
times, and sleeps the fixed 5 time-units exactly once before each of the K
re-attempts. -/
theorem retried_call_rate_limit_transparent (op : Nat → BotoOutcome)
    (v : PyVal) (K fuel : Nat)
    (hK : ∀ d, d < K → isRateLimitOutcome (op d) = true)
    (hok : op K = .ok v) (hfuel : K + 1 ≤ fuel) :
    retried_call op 0 fuel = some (.ok v, K + 1, List.replicate K 5) :=
  retried_call_aux op v K 0 fuel (fun d hd => by simpa using hK d hd)
    (by simpa using hok) hfuel

theorem retried_call_rate_limit_transparent_witness :
    retried_call retryOpW 0 5 =
      some (.ok (.str "result"), 2 + 1, List.replicate 2 5) :=
  retried_call_rate_limit_transparent retryOpW (.str "result") 2 5
    (by decide) rfl (by decide)

/-- C4: if the operation's first invocation fails with anything other than a
rate-limit `ClientError` — a `ClientError` with a different code, a
`ClientError` whose response cannot be inspected, or an exception of another
class — `_retried_call` propagates that failure immediately: the operation is
invoked exactly once and no backoff sleep occurs. -/
theorem retried_call_nonlimit_propagates (op : Nat → BotoOutcome)
    (e : PyErr) (fuel : Nat)
    (h : raisedOf (op 0) = some e) (hfuel : 1 ≤ fuel) :
    retried_call op 0 fuel = some (.error e, 1, []) := by
  cases fuel with
  | zero => simp at hfuel
  | succ f =>
    cases hop : op 0 with
    | ok v => rw [hop] at h; simp [raisedOf] at h
    | otherError e2 =>
      rw [hop] at h
      simp [raisedOf] at h
      simp [retried_call, hop, h]
    | clientError response =>
      rw [hop] at h
      cases hl : isLimitExceeded response with
      | error e2 =>
        rw [raisedOf] at h
        rw [hl] at h
        simp at h
        simp [retried_call, hop, hl, h]
      | ok b =>
        rw [raisedOf] at h
        rw [hl] at h
        cases b with
        | true => simp at h
        | false =>
          simp at h
          simp [retried_call, hop, hl, ← h]

theorem retried_call_nonlimit_propagates_witness :
    retried_call denyOpW 0 4 = some (.error (.clientError deniedResp), 1, []) :=
  retried_call_nonlimit_propagates denyOpW (.clientError deniedResp) 4 rfl
    (by decide)

/-- C1 (behaviour of the code at the claimed input): for a job whose
successive poll responses are well-formed status dictionaries RUNNING,
RUNNING, COMPLETED, a forced run of `get_last_accessed_details` performs one
backoff sleep and one poll and then raises `TypeError`: line 61 wraps the
poll response in `list(...)`, turning the response dictionary into its key
list, and `response["JobStatus"]` then subscripts a list with a string.  No
record is fetched or yielded and `COMPLETED` is never observed (moreover the
`COMPLETED` branch has no `break`, so the loop could not terminate even
without the slip). -/
theorem glad_run_running_running_completed :
    get_last_accessed_details wRRC (.str "arn:deploy") 10 =
      ⟨1, 1, 0, [], .typeError⟩ := by
  rfl

/-- C6 (behaviour of the code at the claimed input): for a job whose
successive poll responses are RUNNING, FAILED, a forced run of
`get_last_accessed_details` raises `TypeError` — not the bare `Exception()`
of the FAILED branch — after one sleep and one poll, for the same
`list(...)` reason as in the RUNNING/RUNNING/COMPLETED run: the status test
on line 64 is never reached. -/
theorem glad_run_running_failed :
    get_last_accessed_details wRF (.str "arn:deploy") 10 =
      ⟨1, 1, 0, [], .typeError⟩ := by
  rfl

/-- C5 (behaviour of the code at the claimed input): for a policy with three
versions of pairwise distinct timestamps T1 < T2 < T3,
`_get_latest_version_id` raises `TypeError` instead of returning the version
with the greatest `CreateDate`: `list_policy_versions` passes
`PolicyArn=…` as a keyword to `_request`, which accepts none; and even on a
directly supplied versions list, the sort key `max(it["CreateDate"])`
applies `max()` to a scalar timestamp, again a `TypeError`. -/
theorem latest_version_selection_crashes :
    get_latest_version_id wVers (.str "p1") = .error .typeError ∧
    latest_of_versions (.list versT123) = .error .typeError := by
  exact ⟨rfl, rfl⟩

/-- C7 (behaviour of the code at the claimed input): in a world where every
remote operation is well formed and the access-analysis job reports FAILED,
`describe_role` raises `TypeError` at its very first step — `get_role`
passes `RoleName=…` as a keyword to `_request`, which accepts none — so no
run of profile assembly ever reaches a later step, and the error surfaced is
never the job failure; and even the access-analysis generator, stored
unconsumed at line 116 and forced separately, raises `TypeError` (line 61's
`list(...)` slip), not the job-failure exception. -/
theorem describe_role_never_assembles :
    describe_role wJobFail "Deploy" 10 = .error .typeError ∧
    (get_last_accessed_details wJobFail (.str "arn:role") 10).err =
      .typeError := by
  exact ⟨rfl, rfl⟩

/-- C8 (behaviour of the code at the claimed input): on the Deploy scenario
— role "Deploy", no inline policies, one attached policy `p1` with versions
v1 (T=1) and v2 (T=2), analysis job completing with one record —
`describe_role` does not return the expected profile: it raises `TypeError`
at its first step (`get_role` passes `RoleName=…` to `_request`). -/
theorem describe_role_deploy_scenario_crashes :
    describe_role wDeploy "Deploy" 10 = .error .typeError := by
  rfl

/-- C9 (behaviour of the code at the claimed input): neither
`list_attached_policies` nor `list_policy_versions` is pagination-wrapped —
both call the single-shot `_request` (aws.py lines 36 and 45), so a second
page could never be fetched — and as written both raise `TypeError` on any
input because they pass identifier keywords to `_request`, which accepts
none; `list_attached_policies` additionally iterates the plain response
dictionary (its keys) as if it were a page sequence. -/
theorem attached_and_versions_not_paginated :
    list_attached_policies wTwoPage "r1" = .error .typeError ∧
    list_policy_versions wTwoPage (.str "p1") = .error .typeError := by
  exact ⟨rfl, rfl⟩

/-- C10 (counterexample to the claim as stated): for an attached policy
whose remote versions list is empty, `_get_latest_version_id` does not fail
by indexing the empty sorted list — it raises `TypeError` before any
versions list is produced, because `list_policy_versions` passes
`PolicyArn=…` to `_request`; and at the public interface `describe_role`
raises `TypeError` already at `get_role`, so the empty-versions indexing
error is unreachable from it. -/
theorem empty_versions_public_error_is_type_error :
    get_latest_version_id wNoVers (.str "p0") = .error .typeError ∧
    describe_role wNoVers "r0" 10 = .error .typeError := by
  exact ⟨rfl, rfl⟩

/-- C10 (amended): the sorting-and-indexing step of
`_get_latest_version_id` (aws.py lines 121–122), applied directly to an
empty versions list, fails by taking element 0 of the empty sorted list — an
`IndexError` — exactly the unstated at-least-one-version precondition; the
sort key is never applied on the empty list, so the `max()` slip does not
mask it there. -/
theorem latest_of_versions_empty_index_error :
    latest_of_versions (.list []) = .error .indexError := by
  rfl
